import Mathlib

/-!
Verification development for the AlgoSimple trading dashboard frontend.

The code under scrutiny is the Angular dashboard component
(`dashboard.component.ts`) and the typed HTTP client
(`trading.service.ts`).  The component is a single-threaded view
controller: it holds filter fields (`maxStocks`, `minPrice`, `maxPrice`),
a `loading` flag, an `error` string, and the last received
`opportunities` / `summary`.  Every network interaction happens through
`TradingService.getMarketDiscovery`, which issues one GET request with
three stringified query parameters.

We embed the component as a pure state-transition function.  JavaScript
numbers are modelled as rationals (`Rat`); the values appearing in this
development are small decimal values, far from any double-precision
rounding boundary.  The asynchronous subscribe callbacks are modelled by
passing the network outcome (`FetchResult`) as an explicit oracle to the
operation: each operation returns the successor state together with the
list of client calls it issued.
-/

/-- Mirrors the `MarketOpportunity` interface of `trading.service.ts`. -/
structure MarketOpportunity where
  symbol : String
  price : Rat
  volume : String
  volatility : Rat
  maTrend : Rat
  score : Rat
  recommendation : String
  deriving Repr, DecidableEq

/-- Mirrors the `MarketSummary` interface of `trading.service.ts`. -/
structure MarketSummary where
  totalOpportunities : Int
  strongBuy : Int
  buy : Int
  weakBuy : Int
  timestamp : String
  deriving Repr, DecidableEq

/-- Mirrors the `MarketDiscoveryResponse` interface of `trading.service.ts`. -/
structure MarketDiscoveryResponse where
  success : Bool
  summary : MarketSummary
  opportunities : List MarketOpportunity
  rawOutput : String
  timestamp : String
  deriving Repr, DecidableEq

/-- One invocation of `TradingService.getMarketDiscovery`: the three
arguments the component passes to the client. -/
structure FetchCall where
  maxStocks : Rat
  minPrice : Rat
  maxPrice : Rat
  deriving Repr, DecidableEq

/-- Outcome of the network call observed by the subscribe callbacks:
either the `next` payload or the `error` object's `message` string. -/
inductive FetchResult where
  | success (resp : MarketDiscoveryResponse)
  | failure (errMessage : String)
  deriving Repr, DecidableEq

/-- The mutable fields of `DashboardComponent`. -/
structure DashboardState where
  opportunities : List MarketOpportunity
  summary : Option MarketSummary
  loading : Bool
  error : Option String
  maxStocks : Rat
  minPrice : Rat
  maxPrice : Rat
  deriving Repr, DecidableEq

/-- The component's field initializers:
`opportunities = []`, `summary = null`, `loading = false`,
`error = null`, `maxStocks = 50`, `minPrice = 0`, `maxPrice = 200`. -/
def initialState : DashboardState :=
  { opportunities := []
    summary := none
    loading := false
    error := none
    maxStocks := 50
    minPrice := 0
    maxPrice := 200 }

/-- `DashboardComponent.refreshData`, with the eventual network outcome
supplied as an oracle.  Returns the state after the method (and, for a
valid range, after the subscribe callback has run) together with the
list of `getMarketDiscovery` calls issued.

Source (dashboard.component.ts):
- if `minPrice >= maxPrice`, set the fixed error message and return
  (no call issued, `loading` untouched);
- otherwise set `loading = true`, `error = null`, call
  `getMarketDiscovery(maxStocks, minPrice, maxPrice)`; on `next`,
  replace `opportunities` and `summary` and clear `loading`; on `error`,
  set `error` to the formatted message and clear `loading`. -/
def refreshData (s : DashboardState) (net : FetchResult) :
    DashboardState × List FetchCall :=
  if s.minPrice ≥ s.maxPrice then
    ({ s with error := some "Minimum price must be less than maximum price" }, [])
  else
    let started : DashboardState := { s with loading := true, error := none }
    let call : FetchCall := ⟨s.maxStocks, s.minPrice, s.maxPrice⟩
    match net with
    | .success resp =>
        ({ started with
            opportunities := resp.opportunities
            summary := some resp.summary
            loading := false }, [call])
    | .failure msg =>
        ({ started with
            error := some ("Failed to load market data: " ++ msg)
            loading := false }, [call])

/-- `DashboardComponent.setPriceRange`: assigns both bounds, then calls
`refreshData`. -/
def setPriceRange (s : DashboardState) (min max : Rat) (net : FetchResult) :
    DashboardState × List FetchCall :=
  refreshData { s with minPrice := min, maxPrice := max } net

/-- `DashboardComponent.ngOnInit`: just calls `refreshData`. -/
def ngOnInit (s : DashboardState) (net : FetchResult) :
    DashboardState × List FetchCall :=
  refreshData s net

/-- `DashboardComponent.getRecommendationClass`: the `switch` statement
is a sequence of exact string comparisons. -/
def getRecommendationClass (recommendation : String) : String :=
  if recommendation = "STRONG BUY" then "strong-buy"
  else if recommendation = "BUY" then "buy"
  else if recommendation = "WEAK BUY" then "weak-buy"
  else if recommendation = "HOLD" then "hold"
  else "neutral"

/-- Model of JavaScript `parseInt(string)` (radix unspecified, decimal
input): skip leading whitespace, read an optional sign, then the maximal
run of decimal digits; the result is `NaN` (here `none`) when that run
is empty.  The hexadecimal `0x` form of `parseInt` is not modelled: the
dashboard's volume strings are decimal text. -/
def parseIntJS (s : String) : Option Int :=
  let cs := s.toList.dropWhile Char.isWhitespace
  let (sign, rest) :=
    match cs with
    | '-' :: t => ((-1 : Int), t)
    | '+' :: t => ((1 : Int), t)
    | t => ((1 : Int), t)
  let digits := rest.takeWhile Char.isDigit
  if digits.isEmpty then none
  else some (sign * (digits.foldl (fun n c => 10 * n + (c.toNat - '0'.toNat)) 0 : Nat))

/-- `Number.prototype.toFixed(1)` for a nonnegative value: the integer
`n` closest to `q * 10` (ties towards the larger `n`, per the ECMAScript
specification), rendered as `n / 10 "." n % 10`. -/
def toFixed1Abs (q : Rat) : String :=
  let n := (q * 10 + 1 / 2).floor.toNat
  toString (n / 10) ++ "." ++ toString (n % 10)

/-- `Number.prototype.toFixed(1)`: sign handled as in the ECMAScript
specification (format the absolute value, prepend "-"). -/
def toFixed1 (q : Rat) : String :=
  if q < 0 then "-" ++ toFixed1Abs (-q) else toFixed1Abs q

/-- `DashboardComponent.formatVolume`: `parseInt` the input; a `NaN`
result fails both `>=` comparisons (every comparison with `NaN` is
false), so the original string is returned. -/
def formatVolume (volume : String) : String :=
  match parseIntJS volume with
  | none => volume
  | some num =>
    if num ≥ 1000000 then toFixed1 ((num : Rat) / 1000000) ++ "M"
    else if num ≥ 1000 then toFixed1 ((num : Rat) / 1000) ++ "K"
    else volume

/-- An HTTP request as constructed by `TradingService`. -/
structure HttpRequest where
  method : String
  url : String
  params : List (String × String)
  deriving Repr, DecidableEq

/-- `TradingService.apiUrl`. -/
def apiUrl : String := "http://localhost:5050/api"

/-- Decimal digits of the fractional part of a rational in `[0, 1)`,
with fuel; used to model JavaScript number-to-string conversion for
terminating decimals. -/
def fracDigits : Nat → Rat → String
  | 0, _ => ""
  | fuel + 1, r =>
    if r = 0 then ""
    else
      let r10 := r * 10
      toString r10.floor.toNat ++ fracDigits fuel (r10 - r10.floor)

/-- Model of JavaScript `Number.prototype.toString()` for the values in
scope (terminating decimals): integers print with no decimal point,
other values print integer part, a dot, and the fractional digits. -/
def jsNumToString (q : Rat) : String :=
  if q.den = 1 then toString q.num
  else
    let sign := if q < 0 then "-" else ""
    let a := |q|
    sign ++ toString a.floor.toNat ++ "." ++ fracDigits 30 (a - a.floor)

/-- `TradingService.getMarketDiscovery(maxStocks, minPrice, maxPrice)`:
one GET against `apiUrl + "/market-discovery"` whose query parameters
are the three stringified arguments, with no validation.  The `params`
list models Angular `HttpClient`'s query-parameter object. -/
def getMarketDiscovery (c : FetchCall) : HttpRequest :=
  { method := "GET"
    url := apiUrl ++ "/market-discovery"
    params :=
      [("max_stocks", jsNumToString c.maxStocks),
       ("min_price", jsNumToString c.minPrice),
       ("max_price", jsNumToString c.maxPrice)] }

/-- Render a query-parameter list the way Angular's `HttpClient`
serializes it: `k=v` pairs joined with `&`. -/
def renderQuery (ps : List (String × String)) : String :=
  String.intercalate "&" (ps.map (fun p => p.1 ++ "=" ++ p.2))

/-- The operations a user (or Angular's lifecycle) can invoke on the
component, each carrying the network outcome oracle for the fetch it may
trigger. -/
inductive DashOp where
  | init (net : FetchResult)
  | refresh (net : FetchResult)
  | setRange (min max : Rat) (net : FetchResult)
  deriving Repr

/-- One operation of the component: successor state and issued calls. -/
def step (s : DashboardState) : DashOp → DashboardState × List FetchCall
  | .init net => ngOnInit s net
  | .refresh net => refreshData s net
  | .setRange mn mx net => setPriceRange s mn mx net

/-- Run a sequence of operations from a state, keeping only the state. -/
def runOps (s : DashboardState) : List DashOp → DashboardState
  | [] => s
  | op :: rest => runOps (step s op).1 rest

/-- A state the component can actually be in after some sequence of
completed operations starting from its field initializers. -/
def Reachable (s : DashboardState) : Prop :=
  ∃ ops : List DashOp, runOps initialState ops = s

/-! ### Basic lemmas about the transition function -/

theorem refreshData_loading_false (s : DashboardState) (net : FetchResult)
    (h : s.loading = false) : (refreshData s net).1.loading = false := by
  unfold refreshData
  split
  · exact h
  · cases net <;> rfl

theorem step_loading_false (s : DashboardState) (op : DashOp)
    (h : s.loading = false) : (step s op).1.loading = false := by
  cases op <;> exact refreshData_loading_false _ _ h

theorem runOps_loading_false :
    ∀ (ops : List DashOp) (s : DashboardState), s.loading = false →
      (runOps s ops).loading = false
  | [], _, h => h
  | op :: rest, s, h =>
    runOps_loading_false rest (step s op).1 (step_loading_false s op h)

theorem reachable_loading_false (s : DashboardState) (h : Reachable s) :
    s.loading = false := by
  obtain ⟨ops, rfl⟩ := h
  exact runOps_loading_false ops initialState rfl

theorem refreshData_bounds (s : DashboardState) (net : FetchResult) :
    (refreshData s net).1.minPrice = s.minPrice ∧
    (refreshData s net).1.maxPrice = s.maxPrice := by
  unfold refreshData
  split
  · exact ⟨rfl, rfl⟩
  · cases net <;> exact ⟨rfl, rfl⟩

/-! ### Claims -/

/-- C1: for every state whose filter bounds satisfy `minPrice ≥ maxPrice`
(in particular every reachable such state, where `loading = false`),
`refreshData` issues no network call and only sets `error` to exactly
"Minimum price must be less than maximum price"; on reachable states the
resulting `loading` is `false`. -/
theorem refreshData_invalid_range :
    (∀ (s : DashboardState) (net : FetchResult), s.minPrice ≥ s.maxPrice →
      (refreshData s net).2 = [] ∧
      (refreshData s net).1 =
        { s with error := some "Minimum price must be less than maximum price" }) ∧
    (∀ (s : DashboardState) (net : FetchResult), Reachable s →
      s.minPrice ≥ s.maxPrice → (refreshData s net).1.loading = false) := by
  constructor
  · intro s net h
    unfold refreshData
    rw [if_pos h]
    exact ⟨rfl, rfl⟩
  · intro s net hr h
    exact refreshData_loading_false s net (reachable_loading_false s hr)

/-- Witness for C1 at the reachable state produced by
`setPriceRange(100, 10)` from the initial state. -/
theorem refreshData_invalid_range_witness :
    (runOps initialState [DashOp.setRange 100 10 (FetchResult.failure "x")]).minPrice ≥
      (runOps initialState [DashOp.setRange 100 10 (FetchResult.failure "x")]).maxPrice ∧
    (refreshData (runOps initialState [DashOp.setRange 100 10 (FetchResult.failure "x")])
        (FetchResult.failure "y")).2 = [] ∧
    (refreshData (runOps initialState [DashOp.setRange 100 10 (FetchResult.failure "x")])
        (FetchResult.failure "y")).1.loading = false :=
  ⟨by decide,
   (refreshData_invalid_range.1 _ (FetchResult.failure "y") (by decide)).1,
   refreshData_invalid_range.2 _ (FetchResult.failure "y") ⟨_, rfl⟩ (by decide)⟩

/-- An operation whose arguments keep the price range well-formed:
`setPriceRange` with `min < max`; `ngOnInit` and `refreshData` take no
bounds. -/
def RangeOk : DashOp → Prop
  | .setRange mn mx _ => mn < mx
  | _ => True

/-- C2 counterexample: after the single operation `setPriceRange(100, 10)`
from the initial state, the component state violates
`minPrice < maxPrice` (the assignments happen before validation and are
never rolled back). -/
theorem setPriceRange_breaks_invariant :
    ¬ ((runOps initialState [DashOp.setRange 100 10 (FetchResult.failure "x")]).minPrice <
        (runOps initialState [DashOp.setRange 100 10 (FetchResult.failure "x")]).maxPrice) := by
  decide

/-- C2 (amended): `minPrice < maxPrice` holds initially and is preserved
by `ngOnInit`, by `refreshData`, and by `setPriceRange(min, max)` whenever
`min < max`; only `setPriceRange` with `min ≥ max` can break it. -/
theorem price_invariant_preserved :
    initialState.minPrice < initialState.maxPrice ∧
    ∀ (s : DashboardState) (op : DashOp), s.minPrice < s.maxPrice → RangeOk op →
      (step s op).1.minPrice < (step s op).1.maxPrice := by
  refine ⟨by norm_num [initialState], ?_⟩
  intro s op h hok
  cases op with
  | init net =>
      have hb := refreshData_bounds s net
      rw [step, ngOnInit, hb.1, hb.2]
      exact h
  | refresh net =>
      have hb := refreshData_bounds s net
      rw [step, hb.1, hb.2]
      exact h
  | setRange mn mx net =>
      have hb := refreshData_bounds { s with minPrice := mn, maxPrice := mx } net
      rw [step, setPriceRange, hb.1, hb.2]
      exact hok

/-- Witness for the amended C2 at `setPriceRange(10, 100)` on the initial
state. -/
theorem price_invariant_preserved_witness :
    (step initialState (DashOp.setRange 10 100 (FetchResult.failure "x"))).1.minPrice <
      (step initialState (DashOp.setRange 10 100 (FetchResult.failure "x"))).1.maxPrice :=
  price_invariant_preserved.2 initialState (DashOp.setRange 10 100 (FetchResult.failure "x"))
    (by norm_num [initialState]) (by norm_num [RangeOk])

/-- C3: every `getMarketDiscovery` call issued by any operation, from any
state, carries bounds with `minPrice < maxPrice`; a combination with
`minPrice ≥ maxPrice` is never sent (including via `setPriceRange`). -/
theorem calls_validated (s : DashboardState) (op : DashOp) (c : FetchCall)
    (hc : c ∈ (step s op).2) : c.minPrice < c.maxPrice := by
  have core : ∀ (t : DashboardState) (net : FetchResult),
      c ∈ (refreshData t net).2 → c.minPrice < c.maxPrice := by
    intro t net hmem
    rw [refreshData] at hmem
    split at hmem
    · simp at hmem
    · rename_i hlt
      push_neg at hlt
      cases net <;>
        · simp only [List.mem_singleton] at hmem
          rw [hmem]
          exact hlt
  cases op with
  | init net => exact core s net hc
  | refresh net => exact core s net hc
  | setRange mn mx net => exact core { s with minPrice := mn, maxPrice := mx } net hc

/-- Witness for C3: the initial load issues the call (50, 0, 200), whose
bounds satisfy 0 < 200. -/
theorem calls_validated_witness :
    FetchCall.mk 50 0 200 ∈ (step initialState (DashOp.refresh (FetchResult.failure "x"))).2 ∧
    (FetchCall.mk 50 0 200).minPrice < (FetchCall.mk 50 0 200).maxPrice :=
  ⟨by decide,
   calls_validated initialState (DashOp.refresh (FetchResult.failure "x"))
     (FetchCall.mk 50 0 200) (by decide)⟩

/-- C4: on a valid range, a failed network call sets `error` to the
formatted message containing the failure cause (hence non-empty), clears
`loading`, and leaves `opportunities` and `summary` exactly as they were
before the call. -/
theorem refreshData_failure (s : DashboardState) (msg : String)
    (h : s.minPrice < s.maxPrice) :
    (refreshData s (FetchResult.failure msg)).1.error =
      some ("Failed to load market data: " ++ msg) ∧
    "Failed to load market data: " ++ msg ≠ "" ∧
    (refreshData s (FetchResult.failure msg)).1.loading = false ∧
    (refreshData s (FetchResult.failure msg)).1.opportunities = s.opportunities ∧
    (refreshData s (FetchResult.failure msg)).1.summary = s.summary := by
  have hne : ¬ s.minPrice ≥ s.maxPrice := not_le.mpr h
  unfold refreshData
  rw [if_neg hne]
  refine ⟨rfl, ?_, rfl, rfl, rfl⟩
  intro hcontra
  have hlen := congrArg String.length hcontra
  rw [String.length_append] at hlen
  have h28 : ("Failed to load market data: ").length = 28 := rfl
  rw [h28] at hlen
  have h0 : ("" : String).length = 0 := rfl
  rw [h0] at hlen
  omega

/-- Witness for C4 at the initial state with failure message "boom". -/
theorem refreshData_failure_witness :
    (refreshData initialState (FetchResult.failure "boom")).1.error =
      some ("Failed to load market data: " ++ "boom") ∧
    (refreshData initialState (FetchResult.failure "boom")).1.loading = false ∧
    (refreshData initialState (FetchResult.failure "boom")).1.opportunities =
      initialState.opportunities ∧
    (refreshData initialState (FetchResult.failure "boom")).1.summary =
      initialState.summary :=
  have hres := refreshData_failure initialState "boom" (by decide)
  ⟨hres.1, hres.2.2.1, hres.2.2.2.1, hres.2.2.2.2⟩

/-- C5: on a valid range, a successful network call replaces
`opportunities` and `summary` wholesale with the payload fields, clears
`loading`, and clears `error`. -/
theorem refreshData_success (s : DashboardState) (resp : MarketDiscoveryResponse)
    (h : s.minPrice < s.maxPrice) :
    (refreshData s (FetchResult.success resp)).1.opportunities = resp.opportunities ∧
    (refreshData s (FetchResult.success resp)).1.summary = some resp.summary ∧
    (refreshData s (FetchResult.success resp)).1.loading = false ∧
    (refreshData s (FetchResult.success resp)).1.error = none := by
  have hne : ¬ s.minPrice ≥ s.maxPrice := not_le.mpr h
  unfold refreshData
  rw [if_neg hne]
  exact ⟨rfl, rfl, rfl, rfl⟩

/-- A concrete response payload used to exercise the success path. -/
def sampleResponse : MarketDiscoveryResponse :=
  { success := true
    summary := { totalOpportunities := 1, strongBuy := 0, buy := 1, weakBuy := 0,
                 timestamp := "2024-01-01T00:00:00Z" }
    opportunities := [{ symbol := "AAPL", price := 150, volume := "1500",
                        volatility := 2, maTrend := 1, score := 9,
                        recommendation := "BUY" }]
    rawOutput := "ok"
    timestamp := "2024-01-01T00:00:00Z" }

/-- Witness for C5 at the initial state with `sampleResponse`. -/
theorem refreshData_success_witness :
    (refreshData initialState (FetchResult.success sampleResponse)).1.opportunities =
      sampleResponse.opportunities ∧
    (refreshData initialState (FetchResult.success sampleResponse)).1.summary =
      some sampleResponse.summary ∧
    (refreshData initialState (FetchResult.success sampleResponse)).1.loading = false ∧
    (refreshData initialState (FetchResult.success sampleResponse)).1.error = none :=
  refreshData_success initialState sampleResponse (by decide)

/-- C6: `getRecommendationClass` is an exact, case-sensitive match on the
four labels, with "neutral" for every other string (including "SELL" and
lowercase "buy"). -/
theorem getRecommendationClass_spec :
    getRecommendationClass "STRONG BUY" = "strong-buy" ∧
    getRecommendationClass "BUY" = "buy" ∧
    getRecommendationClass "WEAK BUY" = "weak-buy" ∧
    getRecommendationClass "HOLD" = "hold" ∧
    getRecommendationClass "SELL" = "neutral" ∧
    getRecommendationClass "buy" = "neutral" ∧
    ∀ s : String, s ≠ "STRONG BUY" → s ≠ "BUY" → s ≠ "WEAK BUY" → s ≠ "HOLD" →
      getRecommendationClass s = "neutral" := by
  refine ⟨by decide, by decide, by decide, by decide, by decide, by decide, ?_⟩
  intro s h1 h2 h3 h4
  simp [getRecommendationClass, h1, h2, h3, h4]

/-- Witness for C6 at an unknown label. -/
theorem getRecommendationClass_spec_witness :
    getRecommendationClass "STRONG SELL" = "neutral" :=
  getRecommendationClass_spec.2.2.2.2.2.2 "STRONG SELL"
    (by decide) (by decide) (by decide) (by decide)

/-- C7: `formatVolume` parses its input as an integer and renders values
at least 1,000,000 as the value over 1e6 to one decimal with "M", values
at least 1,000 (but below 1,000,000) as the value over 1e3 to one decimal
with "K", and anything smaller as the original text; the four reference
evaluations hold. -/
theorem formatVolume_spec :
    (∀ (s : String) (n : Int), parseIntJS s = some n →
      (n ≥ 1000000 → formatVolume s = toFixed1 ((n : Rat) / 1000000) ++ "M") ∧
      (¬ n ≥ 1000000 → n ≥ 1000 → formatVolume s = toFixed1 ((n : Rat) / 1000) ++ "K") ∧
      (¬ n ≥ 1000000 → ¬ n ≥ 1000 → formatVolume s = s)) ∧
    formatVolume "500" = "500" ∧
    formatVolume "1500" = "1.5K" ∧
    formatVolume "2500000" = "2.5M" ∧
    formatVolume "999999" = "1000.0K" := by
  refine ⟨?_, ?_, ?_, ?_, ?_⟩
  · intro s n h
    refine ⟨?_, ?_, ?_⟩
    · intro h1
      rw [formatVolume, h]
      dsimp only
      rw [if_pos h1]
    · intro h1 h2
      rw [formatVolume, h]
      dsimp only
      rw [if_neg h1, if_pos h2]
    · intro h1 h2
      rw [formatVolume, h]
      dsimp only
      rw [if_neg h1, if_neg h2]
  · have h : parseIntJS "500" = some 500 := by decide
    rw [formatVolume, h]
    norm_num
  · have h : parseIntJS "1500" = some 1500 := by decide
    rw [formatVolume, h]
    norm_num [toFixed1, toFixed1Abs, Rat.floor]
    decide
  · have h : parseIntJS "2500000" = some 2500000 := by decide
    rw [formatVolume, h]
    norm_num [toFixed1, toFixed1Abs, Rat.floor]
    decide
  · have h : parseIntJS "999999" = some 999999 := by decide
    rw [formatVolume, h]
    norm_num [toFixed1, toFixed1Abs, Rat.floor]
    decide

/-- Witness for C7 on the K branch at "1500". -/
theorem formatVolume_spec_witness :
    parseIntJS "1500" = some 1500 ∧
    formatVolume "1500" = toFixed1 (((1500 : Int) : Rat) / 1000) ++ "K" := by
  exact ⟨by decide, ((formatVolume_spec.1 "1500" 1500 (by decide)).2.1
    (by decide) (by decide))⟩

/-- C10: an input with no leading numeric text parses to `NaN`, both
threshold comparisons fail, and `formatVolume` returns the input
unchanged. -/
theorem formatVolume_nan (s : String) (h : parseIntJS s = none) :
    formatVolume s = s := by
  rw [formatVolume, h]

/-- Witness for C10 at "N/A". -/
theorem formatVolume_nan_witness :
    parseIntJS "N/A" = none ∧ formatVolume "N/A" = "N/A" :=
  ⟨by decide, formatVolume_nan "N/A" (by decide)⟩

/-- C8: `setPriceRange(10, 100)` sets `minPrice = 10`, `maxPrice = 100`
and issues exactly one `getMarketDiscovery` call carrying those bounds;
in general `setPriceRange(min, max)` assigns both bounds and immediately
runs `refreshData` on the updated state (same validation rule). -/
theorem setPriceRange_spec :
    (∀ (s : DashboardState) (net : FetchResult),
      (setPriceRange s 10 100 net).1.minPrice = 10 ∧
      (setPriceRange s 10 100 net).1.maxPrice = 100 ∧
      (setPriceRange s 10 100 net).2 = [FetchCall.mk s.maxStocks 10 100]) ∧
    (∀ (s : DashboardState) (mn mx : Rat) (net : FetchResult),
      setPriceRange s mn mx net =
        refreshData { s with minPrice := mn, maxPrice := mx } net) := by
  constructor
  · intro s net
    have hlt : ¬ (10 : Rat) ≥ 100 := by norm_num
    have hb := refreshData_bounds { s with minPrice := 10, maxPrice := 100 } net
    refine ⟨by rw [setPriceRange, hb.1], by rw [setPriceRange, hb.2], ?_⟩
    rw [setPriceRange, refreshData, if_neg hlt]
    cases net <;> rfl
  · intro s mn mx net
    rfl

/-- C9: `getMarketDiscovery` builds, for every input triple and with no
local validation, a single GET against `apiUrl ++ "/market-discovery"`
whose query parameters are the stringified inputs; the initial load with
the default filters issues exactly one such request, rendering as
`max_stocks=50&min_price=0&max_price=200`. -/
theorem getMarketDiscovery_spec :
    (∀ c : FetchCall,
      getMarketDiscovery c =
        { method := "GET"
          url := apiUrl ++ "/market-discovery"
          params := [("max_stocks", jsNumToString c.maxStocks),
                     ("min_price", jsNumToString c.minPrice),
                     ("max_price", jsNumToString c.maxPrice)] }) ∧
    (∀ net : FetchResult,
      (ngOnInit initialState net).2.map getMarketDiscovery =
        [{ method := "GET"
           url := "http://localhost:5050/api/market-discovery"
           params := [("max_stocks", "50"), ("min_price", "0"),
                      ("max_price", "200")] }]) ∧
    renderQuery [("max_stocks", "50"), ("min_price", "0"), ("max_price", "200")] =
      "max_stocks=50&min_price=0&max_price=200" := by
  refine ⟨fun c => rfl, ?_, by decide⟩
  intro net
  have hne : ¬ initialState.minPrice ≥ initialState.maxPrice := by decide
  have hmap : List.map getMarketDiscovery [FetchCall.mk 50 0 200] =
      [{ method := "GET"
         url := "http://localhost:5050/api/market-discovery"
         params := [("max_stocks", "50"), ("min_price", "0"),
                    ("max_price", "200")] }] := by decide
  rw [ngOnInit, refreshData, if_neg hne]
  cases net <;> exact hmap
